import Mathlib

/-!
Verification development for the asynchronous wine-analysis job pipeline:
a Trigger Service (src/pages/api/analyze-wine.ts), Worker variants
(src/unnamed/part_000: a Firebase callable and two Netlify handlers), and a
Status Service (src/pages/api/get-analysis-result.ts and the Firebase
getAnalysisResult callable), coordinating through key-value stores.

External collaborators (OpenAI, Serper, blob storage, the network) are
modelled as oracle inputs; the pure data flow, the store writes and their
ordering are translated from the source.
-/

/-- Job status values as stored by the Trigger Service and the Netlify
Worker in the Vercel KV record (string literals in the source). -/
inductive Status where
  | uploading
  | processing
  | processingStarted
  | completed
  | failed
  | triggerFailed
deriving DecidableEq, Repr

/-- Statuses with no outgoing transition in the section 4.3 state machine. -/
def isTerminal : Status → Bool
  | .completed => true
  | .failed => true
  | .triggerFailed => true
  | _ => false

/-- JavaScript `a || b` where `a` is an optional string: `undefined` and the
empty string are falsy. -/
def jsOrElse (a : Option String) (b : String) : String :=
  match a with
  | some s => if s = "" then b else s
  | none => b

/-- JavaScript `a || undefined` over an optional string. -/
def jsOrUndefined (a : Option String) : Option String :=
  match a with
  | some s => if s = "" then none else some s
  | none => none

/-- JavaScript `a || b` where both sides are optional strings. -/
def jsOrOpt (a b : Option String) : Option String :=
  match a with
  | some s => if s = "" then b else some s
  | none => b

/-- Stage-1 candidate item as the Worker receives it
(`WineInfoInput` in part_000): all identification fields optional. -/
structure WineInfoInput where
  name : Option String := none
  vintage : Option String := none
  producer : Option String := none
  region : Option String := none
  varietal : Option String := none
deriving DecidableEq, Repr

/-- One review snippet attached to a processed wine
(`Review` in part_000). -/
structure Review where
  source : String
  review : String
deriving DecidableEq, Repr

/-- Rating produced by `extractRatingFromReviews` or
`estimateScoreFromReviews` (`WineRating` in part_000). -/
structure WineRating where
  score : Nat
  source : String
  review : Option String := none
deriving DecidableEq, Repr

/-- Enriched item produced by one Stage-2 task of the Netlify Worker
(`ProcessedWine` in part_000). -/
structure ProcessedWine where
  name : String
  vintage : Option String := none
  producer : Option String := none
  region : Option String := none
  varietal : Option String := none
  imageUrl : Option String := none
  score : Nat
  ratingSource : String
  summary : Option String := none
  additionalReviews : Option (List Review) := none
  error : Option String := none
deriving DecidableEq, Repr

/-- Data a Stage-2 task obtains from its external collaborators when no
exception escapes: the Serper review snippets, the rating (computed by the
regex pass `extractRatingFromReviews` over the snippets, or by the
AI fallback `estimateScoreFromReviews` when there are none), the AI summary
sentence, and the result of `fetchWineImage`. These are network results and
enter the model as oracle data. -/
structure EnrichmentData where
  reviews : List String
  rating : WineRating
  aiSummary : String
  detailImageUrl : Option String := none
deriving DecidableEq, Repr

/-- Outcome of one Stage-2 task body: either the collaborator calls all
return (possibly degraded) data, or an exception escapes into the
per-wine catch block (part_000 lines 982-994). -/
inductive TaskOutcome where
  | ok (d : EnrichmentData)
  | thrown (msg : String)
deriving DecidableEq, Repr

/-- One Stage-2 enrichment task of the Netlify Worker (part_000 lines
933-994). On success it returns the identification fields plus the
collaborator data; the catch block returns only name, vintage and producer
with score 0, ratingSource "Processing Error" and an error annotation. -/
def processWineTask (wineInfo : WineInfoInput) (outcome : TaskOutcome) : ProcessedWine :=
  match outcome with
  | .ok d =>
      { name := jsOrElse wineInfo.name "Unknown Wine"
        vintage := jsOrUndefined wineInfo.vintage
        producer := jsOrUndefined wineInfo.producer
        region := jsOrUndefined wineInfo.region
        varietal := jsOrUndefined wineInfo.varietal
        imageUrl := jsOrUndefined d.detailImageUrl
        score := d.rating.score
        ratingSource := d.rating.source
        summary := some d.aiSummary
        additionalReviews := some (d.reviews.map fun r => { source := "Review Snippet", review := r })
        error := none }
  | .thrown msg =>
      { name := jsOrElse wineInfo.name "Unknown Wine"
        vintage := jsOrUndefined wineInfo.vintage
        producer := jsOrUndefined wineInfo.producer
        region := none
        varietal := none
        imageUrl := none
        score := 0
        ratingSource := "Processing Error"
        summary := none
        additionalReviews := none
        error := some ("Failed to process complete data: " ++ msg) }

/-- Stage-2 fan-out joined by `Promise.all` (part_000 line 996): one task
per extracted wine, each with its own collaborator outcome. -/
def processedWinesList (wines : List WineInfoInput) (outcomes : List TaskOutcome) :
    List ProcessedWine :=
  List.zipWith processWineTask wines outcomes

/-- The JSON object the Trigger Service and the Netlify Worker store in
Vercel KV under the job id. Fields absent from a given `kv.set` call are
`none`: `kv.set` stores exactly the object passed to it. -/
structure KVRecord where
  status : Status
  requestTimestamp : Option Nat := none
  imageUrl : Option String := none
  error : Option String := none
  errorDetails : Option String := none
  processingTimestamp : Option Nat := none
  completionTimestamp : Option Nat := none
  durationMs : Option Nat := none
  wines : Option (List ProcessedWine) := none
deriving DecidableEq, Repr

/-- The Vercel KV store restricted to job records. -/
abbrev KVStore := String → Option KVRecord

/-- Model of `kv.set(key, value)`: stores `value` under `key`, replacing
whatever record was there before. -/
def kvSet (st : KVStore) (k : String) (v : KVRecord) : KVStore :=
  fun key => if key = k then some v else st key

/-- The empty KV store. -/
def kvEmpty : KVStore := fun _ => none

/-- HTTP response body of the Trigger Service
(`TriggerApiResponse` in analyze-wine.ts). -/
structure TriggerResponse where
  success : Bool
  message : Option String := none
  status : Option String := none
  jobId : Option String := none
  requestId : String
deriving DecidableEq, Repr

/-- Observable events of a Trigger Service invocation, in program order:
KV writes and the HTTP response sent back to the submitting client. -/
inductive Event where
  | kvWrite (key : String) (rec : KVRecord)
  | httpResponse (statusCode : Nat) (body : TriggerResponse)
deriving DecidableEq, Repr

/-- Replay the KV writes of an event list onto a store. -/
def applyEvents (st : KVStore) : List Event → KVStore
  | [] => st
  | .kvWrite k v :: es => applyEvents (kvSet st k v) es
  | .httpResponse _ _ :: es => applyEvents st es

/-- The sequence of status values written to the record of `jobId`,
in write order. Polling between consecutive writes observes exactly the
last written status, so the statuses a poller can observe over time are a
subsequence (with stuttering) of this trace. -/
def statusTrace (jobId : String) (es : List Event) : List Status :=
  es.filterMap fun e =>
    match e with
    | .kvWrite k rec => if k = jobId then some rec.status else none
    | .httpResponse _ _ => none

/-- Monotonicity along the section 4.3 state machine: once a terminal
status is written, every later write carries the same status. -/
def monotoneStatusTrace (l : List Status) : Prop :=
  ∀ i j : Fin l.length, i < j → isTerminal l[i] = true → l[j] = l[i]

instance (l : List Status) : Decidable (monotoneStatusTrace l) := by
  unfold monotoneStatusTrace
  infer_instance

/-- Record written by the Netlify Worker when it starts
(part_000 line 914). -/
def processingStartedRec (imageUrl : String) (t0 : Nat) : KVRecord :=
  { status := .processingStarted, imageUrl := some imageUrl, processingTimestamp := some t0 }

/-- Record the Netlify Worker writes when Stage 1 identifies no wine
(part_000 lines 921-927). -/
def workerNoWineRec (imageUrl : String) (tEnd dur : Nat) : KVRecord :=
  { status := .failed
    error := some "Could not identify any wine in the image."
    imageUrl := some imageUrl
    completionTimestamp := some tEnd
    durationMs := some dur }

/-- Terminal record of a successful Netlify Worker run
(part_000 lines 999-1006). -/
def workerCompletedRec (ws : List ProcessedWine) (imageUrl : String) (tEnd dur : Nat) :
    KVRecord :=
  { status := .completed
    wines := some ws
    imageUrl := some imageUrl
    completionTimestamp := some tEnd
    durationMs := some dur }

/-- KV writes of one Netlify Worker invocation (part_000 lines 884-1035)
once its input validation passed: the processing-started write, then the
terminal write (failed when Stage 1 yields zero items, completed with the
joined Stage-2 results otherwise). The handler sends its own HTTP response
only after the terminal write. -/
def workerEvents (jobId imageUrl : String) (extraction : List WineInfoInput)
    (outcomes : List TaskOutcome) (t0 tEnd : Nat) : List Event :=
  Event.kvWrite jobId (processingStartedRec imageUrl t0) ::
    (if extraction.length = 0 then
      [Event.kvWrite jobId (workerNoWineRec imageUrl tEnd (tEnd - t0))]
    else
      [Event.kvWrite jobId
        (workerCompletedRec (processedWinesList extraction outcomes) imageUrl tEnd (tEnd - t0))])

/-- Characters accepted by the base64 alphabet (for modelling `atob`). -/
def isBase64AlphabetChar (c : Char) : Bool :=
  (('A' ≤ c && c ≤ 'Z') || ('a' ≤ c && c ≤ 'z') || ('0' ≤ c && c ≤ '9') || c = '+' || c = '/')

/-- Whether `atob` succeeds on a payload, per the forgiving-base64
algorithm: strip ASCII whitespace, allow up to two trailing padding
characters when the length is a multiple of four, reject a remainder of
one, reject any character outside the base64 alphabet. -/
def atobOk (s : List Char) : Bool :=
  let t := s.filter fun c => !(c = ' ' || c = '\t' || c = '\n' || c = '\r' || c = '\x0c')
  let t := if t.length % 4 = 0 then
      (if t.reverse.take 2 = ['=', '='] then t.dropLast.dropLast
       else if t.reverse.take 1 = ['='] then t.dropLast else t)
    else t
  t.length % 4 ≠ 1 && t.all isBase64AlphabetChar

/-- Whether the regex `:(.*?);` matches the data-URL header: a colon with
a semicolon somewhere after it. -/
def mimeMatchOk (s : List Char) : Bool :=
  match s.dropWhile (fun c => !(c = ':')) with
  | [] => false
  | _ :: rest => rest.any fun c => c = ';'

/-- Character-list prefix test (the JavaScript `String.startsWith`). -/
def startsWithChars : List Char → List Char → Bool
  | _, [] => true
  | [], _ :: _ => false
  | c :: cs, p :: ps => c = p && startsWithChars cs ps

/-- The JavaScript `s.startsWith(pre)`. -/
def strStartsWith (s pre : String) : Bool :=
  startsWithChars s.toList pre.toList

/-- The JavaScript `split` with a one-character separator: splits at
every occurrence, keeping empty segments. -/
def splitOnChar (sep : Char) : List Char → List (List Char)
  | [] => [[]]
  | c :: cs =>
      if c = sep then [] :: splitOnChar sep cs
      else
        match splitOnChar sep cs with
        | [] => [[c]]
        | p :: ps => (c :: p) :: ps

/-- Whether `dataURLtoBlob` (analyze-wine.ts lines 37-55) returns a Blob
rather than null: the string must split on a comma into at least two
parts, the header must contain a mime match, and `atob` must not throw
on the payload. -/
def dataURLtoBlobOk (s : String) : Bool :=
  let arr := splitOnChar ',' s.toList
  if arr.length < 2 then false
  else mimeMatchOk arr.headI && atobOk arr[1]!

/-- Whether the Trigger Service obtains a non-null `imageBlob` from the
payload (analyze-wine.ts lines 95-120): data URLs go through
`dataURLtoBlob`; the raw branch builds a Buffer with `Buffer.from`, which
does not throw, so it always yields a Blob. -/
def imageBlobOk (image : String) : Bool :=
  if strStartsWith image "data:image" then dataURLtoBlobOk image else true

/-- Initial record of the Trigger Service (analyze-wine.ts line 89). -/
def uploadingRec (tReq : Nat) : KVRecord :=
  { status := .uploading, requestTimestamp := some tReq }

/-- Record the Trigger Service stores when the dispatch call to the
Worker fails synchronously (analyze-wine.ts lines 163-168). -/
def triggerFailedRec (blobUrl errDetails : String) : KVRecord :=
  { status := .triggerFailed
    error := some "Failed to trigger background processing"
    imageUrl := some blobUrl
    errorDetails := some errDetails }

/-- Record the Trigger Service stores after a successful dispatch
(analyze-wine.ts lines 180-184). -/
def processingRec (blobUrl : String) (tProc : Nat) : KVRecord :=
  { status := .processing, imageUrl := some blobUrl, processingTimestamp := some tProc }

/-- Record stored by the catch-all error path of the Trigger Service
(analyze-wine.ts line 201). -/
def setupFailedRec (msg : String) : KVRecord :=
  { status := .failed, error := some msg }

/-- Outcome of the awaited `axios.post` dispatch to the Worker. When the
call returns, the Worker handler has already sent its HTTP response, which
part_000 produces only after its terminal KV write, so every Worker write
precedes the Trigger resuming. A synchronous network failure lands in the
catch block instead. -/
inductive DispatchOutcome where
  | returned (extraction : List WineInfoInput) (outcomes : List TaskOutcome) (t0 tEnd : Nat)
  | failedWith (msg : String)
deriving DecidableEq, Repr

/-- One invocation of the Trigger Service handler (analyze-wine.ts lines
58-211) for a POST request, as its sequence of KV writes and its HTTP
response, in program order. `jobId` is the freshly generated uuid,
`blobUrl` the URL returned by the Vercel Blob `put` collaborator. -/
def triggerEvents (image : Option String) (jobId requestId blobUrl : String)
    (dispatch : DispatchOutcome) (tReq tProc : Nat) : List Event :=
  match image with
  | none =>
      [Event.httpResponse 400
        { success := false, message := some "No image provided", requestId := requestId }]
  | some img =>
    if img = "" then
      [Event.httpResponse 400
        { success := false, message := some "No image provided", requestId := requestId }]
    else
      Event.kvWrite jobId (uploadingRec tReq) ::
        (if imageBlobOk img then
          match dispatch with
          | .failedWith msg =>
              [Event.kvWrite jobId (triggerFailedRec blobUrl msg),
               Event.httpResponse 500
                 { success := false
                   message := some "Failed to start background analysis job."
                   status := some "failed"
                   jobId := some jobId
                   requestId := requestId }]
          | .returned extraction outcomes t0 tEnd =>
              workerEvents jobId blobUrl extraction outcomes t0 tEnd ++
                [Event.kvWrite jobId (processingRec blobUrl tProc),
                 Event.httpResponse 202
                   { success := true
                     status := some "processing"
                     jobId := some jobId
                     requestId := requestId }]
        else
          [Event.kvWrite jobId (setupFailedRec "Failed to process image data for upload."),
           Event.httpResponse 500
             { success := false
               message := some "An internal server error occurred."
               status := some "failed"
               jobId := some jobId
               requestId := requestId }])

/-- Indexes of the events satisfying `p`, counting from `i`. -/
def eventIndexesWhereFrom (p : Event → Bool) (i : Nat) : List Event → List Nat
  | [] => []
  | e :: es =>
      if p e then i :: eventIndexesWhereFrom p (i + 1) es
      else eventIndexesWhereFrom p (i + 1) es

/-- Indexes (in program order) of the events satisfying `p`. -/
def eventIndexesWhere (p : Event → Bool) (es : List Event) : List Nat :=
  eventIndexesWhereFrom p 0 es

/-- Indexes of HTTP responses in an event list. -/
def responseIndexes (es : List Event) : List Nat :=
  eventIndexesWhere (fun e => match e with | .httpResponse _ _ => true | _ => false) es

/-- First HTTP status code produced by a run. -/
def responseCode (es : List Event) : Option Nat :=
  (es.filterMap fun e =>
    match e with
    | .httpResponse c _ => some c
    | _ => none).head?

/-- Indexes of writes that store a terminal status under `jobId`. -/
def terminalWriteIndexes (jobId : String) (es : List Event) : List Nat :=
  eventIndexesWhere
    (fun e => match e with
      | .kvWrite k rec => k = jobId && isTerminal rec.status
      | _ => false) es

/-- The Submit response precedes every terminal pipeline write: this is
what returning without waiting for the pipeline means for the event
order of a run. -/
def respondsBeforePipelineEnd (jobId : String) (es : List Event) : Prop :=
  ∀ r ∈ responseIndexes es, ∀ t ∈ terminalWriteIndexes jobId es, r < t

instance (jobId : String) (es : List Event) :
    Decidable (respondsBeforePipelineEnd jobId es) := by
  unfold respondsBeforePipelineEnd
  infer_instance

/-- Candidate object parsed from the vision JSON response, with the alias
keys the normalization in `analyzeImageWithOpenAI` consults
(part_000 lines 116-121 and 749-754). -/
structure RawWineJson where
  name : Option String := none
  wine_name : Option String := none
  vintage : Option String := none
  year : Option String := none
  producer : Option String := none
  winery : Option String := none
  region : Option String := none
  varietal : Option String := none
  grape_variety : Option String := none
deriving DecidableEq, Repr

/-- Normalized Stage-1 item: every field defaulted to the empty string. -/
structure NormalizedWine where
  name : String
  vintage : String
  producer : String
  region : String
  varietal : String
deriving DecidableEq, Repr

/-- JavaScript `a || b || two-Chars-empty-string` over two optional strings. -/
def jsOr2 (a b : Option String) : String :=
  jsOrElse a (jsOrElse b "")

/-- Field normalization of one parsed candidate
(part_000 lines 116-121). -/
def normalizeParsedWine (w : RawWineJson) : NormalizedWine :=
  { name := jsOr2 w.name w.wine_name
    vintage := jsOr2 w.vintage w.year
    producer := jsOr2 w.producer w.winery
    region := jsOrElse w.region ""
    varietal := jsOr2 w.varietal w.grape_variety }

/-- Tail of `analyzeImageWithOpenAI` (part_000 lines 116-122 and 749-755):
normalize each parsed candidate, then keep only those whose normalized
name is truthy. The vision network call and the layered JSON parse that
produce `parsedWines` are modelled as the input to this step. -/
def analyzeImageWithOpenAI (parsedWines : List RawWineJson) : List NormalizedWine :=
  (parsedWines.map normalizeParsedWine).filter fun w => w.name != ""

/-- Validation helper of the OpenAI-variant trigger
(analyze-wine-openai.ts lines 42-58): data URLs must split on a comma into
exactly two parts; otherwise the string must match the raw base64 regex. -/
def validateAndExtractImageData (imageStr : String) : Option String :=
  if imageStr = "" then none
  else if strStartsWith imageStr "data:" then
    let parts := splitOnChar ',' imageStr.toList
    if parts.length ≠ 2 then none else some (String.mk parts[1]!)
  else if imageStr.toList ≠ [] &&
      imageStr.toList.all fun c => isBase64AlphabetChar c || c = '=' then
    some imageStr
  else none

/-- Response body of the OpenAI-variant trigger
(`AnalyzeResponseData` in analyze-wine-openai.ts, error cases). -/
structure OpenaiResponse where
  status : String
  message : Option String := none
  jobId : String
deriving DecidableEq, Repr

/-- Job record hash of the OpenAI-variant trigger
(analyze-wine-openai.ts line 119): `kv.hset` fields at creation. `now`
stands for the `new Date().toISOString()` values. -/
structure OpenaiJobRecord where
  status : Status
  imageUrl : Option String := none
  createdAt : Option String := none
  updatedAt : Option String := none
  requestId : Option String := none
  error : Option String := none
deriving DecidableEq, Repr

/-- Observable events of the OpenAI-variant trigger: hash writes to its
`job:` keyed KV record and the HTTP response. -/
inductive OpenaiEvent where
  | kvHset (key : String) (rec : OpenaiJobRecord)
  | httpResponse (statusCode : Nat) (body : OpenaiResponse)
deriving DecidableEq, Repr

/-- Validation phase of the OpenAI-variant trigger handler
(analyze-wine-openai.ts lines 60-125): a missing payload or a payload that
`validateAndExtractImageData` rejects is answered with 400 before the
`kv.hset` that creates the job record; on acceptance the handler creates
the record and continues with the pipeline, whose later events are the
`rest` of the run. -/
def openaiTriggerEvents (image : Option String) (jobId blobUrl requestId now : String)
    (rest : List OpenaiEvent) : List OpenaiEvent :=
  match image with
  | none =>
      [OpenaiEvent.httpResponse 400
        { status := "error", message := some "No image provided", jobId := jobId }]
  | some img =>
    if img = "" then
      [OpenaiEvent.httpResponse 400
        { status := "error", message := some "No image provided", jobId := jobId }]
    else
      match validateAndExtractImageData img with
      | none =>
          [OpenaiEvent.httpResponse 400
            { status := "error"
              message := some "Invalid image data format. Expected base64 string or data URL"
              jobId := jobId }]
      | some _ =>
          OpenaiEvent.kvHset ("job:" ++ jobId)
            { status := .processing
              imageUrl := some blobUrl
              createdAt := some now
              updatedAt := some now
              requestId := some requestId } ::
            rest

/-- KV hash writes of an OpenAI-variant run under `key`. -/
def openaiWritesTo (key : String) (es : List OpenaiEvent) : List OpenaiJobRecord :=
  es.filterMap fun e =>
    match e with
    | .kvHset k rec => if k = key then some rec else none
    | .httpResponse _ _ => none

/-- First HTTP status code of an OpenAI-variant run. -/
def openaiResponseCode (es : List OpenaiEvent) : Option Nat :=
  (es.filterMap fun e =>
    match e with
    | .httpResponse c _ => some c
    | _ => none).head?

/-- One item of `essentialWineData`, the abbreviated enriched wine the
Firebase worker persists (part_000 lines 428-450). `valueScore` carries
the value-for-money ratio field of the source; the three flavor fields are
the flavor-profile attributes kept in storage. -/
structure EssentialWine where
  name : String
  vintage : String
  producer : String
  region : String
  varietal : String
  score : Nat
  tastingNotes : String
  webSnippets : String
  estimatedPrice : Option String := none
  valueScore : Option Nat := none
  valueAssessment : String
  flavorFruitiness : Nat
  flavorAcidity : Nat
  flavorBody : Nat
  isFromMenu : Bool
deriving DecidableEq, Repr

/-- The `resultSummary` object of the primary Firestore document
(part_000 lines 456-460). -/
structure ResultSummary where
  wineCount : Nat
  wineNames : List String
  imageUrl : String
deriving DecidableEq, Repr

/-- The `result` object written by the zero-wine branch
(part_000 lines 368-371); its item list is empty there. -/
structure FireResult where
  wines : List EssentialWine
  message : Option String := none
deriving DecidableEq, Repr

/-- The `resultMinimal` object of the size-limit fallback
(part_000 lines 479-483). -/
structure ResultMinimal where
  wineCount : Nat
  wineNames : List String
  message : String
deriving DecidableEq, Repr

/-- A document of the `jobs` Firestore collection. The primary document of
a job uses the status and summary fields; its `jobId ++ "_details"`
companion uses `wines` and `createdAt`. Absent fields are `none`. -/
structure FireDoc where
  status : Option Status := none
  requestId : Option String := none
  imageUrl : Option String := none
  createdAt : Option Nat := none
  updatedAt : Option Nat := none
  completedAt : Option Nat := none
  processingStartedAt : Option Nat := none
  result : Option FireResult := none
  resultSummary : Option ResultSummary := none
  resultMinimal : Option ResultMinimal := none
  wines : Option (List EssentialWine) := none
deriving DecidableEq, Repr

/-- The Firestore `jobs` collection, keyed by document id. -/
abbrev FireStore := String → Option FireDoc

/-- A field-level merge: the patch value wins where present. -/
def mergeField {α : Type} (patch current : Option α) : Option α :=
  match patch with
  | some v => some v
  | none => current

/-- Firestore `doc(k).set(v)`: store `v` under `k`, replacing any previous
document. -/
def fsSet (st : FireStore) (k : String) (v : FireDoc) : FireStore :=
  fun key => if key = k then some v else st key

/-- Merge a patch into an existing document: fields present in the patch
replace the current value, all other fields are unchanged. -/
def fsMerge (current patch : FireDoc) : FireDoc :=
  { status := mergeField patch.status current.status
    requestId := mergeField patch.requestId current.requestId
    imageUrl := mergeField patch.imageUrl current.imageUrl
    createdAt := mergeField patch.createdAt current.createdAt
    updatedAt := mergeField patch.updatedAt current.updatedAt
    completedAt := mergeField patch.completedAt current.completedAt
    processingStartedAt := mergeField patch.processingStartedAt current.processingStartedAt
    result := mergeField patch.result current.result
    resultSummary := mergeField patch.resultSummary current.resultSummary
    resultMinimal := mergeField patch.resultMinimal current.resultMinimal
    wines := mergeField patch.wines current.wines }

/-- Firestore `doc(k).update(patch)`: merges the given fields into the
existing document; fails (NotFound) when the document does not exist. -/
def fsUpdate (st : FireStore) (k : String) (patch : FireDoc) : Option FireStore :=
  match st k with
  | none => none
  | some d => some (fsSet st k (fsMerge d patch))

/-- The image reference stored instead of a raw data URL
(part_000 lines 342, 373, 459). -/
def summaryImageUrl (imageUrl : String) : String :=
  if strStartsWith imageUrl "data:" then "image_uploaded_as_data_url" else imageUrl

/-- Return payload of the zero-wine branch of the Firebase callable
(part_000 line 379): `jobId`, status completed and an empty wines array. -/
structure AnalyzeCallableReturn where
  jobId : String
  status : Status
  wines : List EssentialWine
deriving DecidableEq, Repr

/-- The zero-wine branch of the Firebase `analyzeWine` callable
(part_000 lines 361-380): when Stage 1 yields no wines, merge a completed
status with an empty result into the job document and return completed
with zero wines. -/
def analyzeWineNoWinesBranch (st : FireStore) (jobId imageUrl : String) (now : Nat) :
    Option FireStore × AnalyzeCallableReturn :=
  ((fsUpdate st jobId
      { status := some .completed
        result := some { wines := [], message := some "No wines detected in the image" }
        imageUrl := some (summaryImageUrl imageUrl)
        updatedAt := some now
        completedAt := some now }),
   { jobId := jobId, status := .completed, wines := [] })

/-- Stage-3 success path of the Firebase worker (part_000 lines 452-471):
merge the completed status and the abbreviated `resultSummary` into the
primary document, then store the full item array in the separate
`jobId ++ "_details"` document. `none` when the primary document is
missing (the `update` would reject). -/
def storeAnalysisResults (st : FireStore) (jobId imageUrl : String)
    (essential : List EssentialWine) (now : Nat) : Option FireStore :=
  (fsUpdate st jobId
      { status := some .completed
        resultSummary := some
          { wineCount := essential.length
            wineNames := essential.map fun w => w.name
            imageUrl := summaryImageUrl imageUrl }
        updatedAt := some now
        completedAt := some now }).map
    fun st1 => fsSet st1 (jobId ++ "_details") { wines := some essential, createdAt := some now }

/-- Status field of the poll response of the Firebase `getAnalysisResult`
callable: a stored status, `not_found`, or the `unknown` default. -/
inductive PollStatus where
  | statusOf (s : Status)
  | notFound
  | unknownStatus
deriving DecidableEq, Repr

/-- The `data` payload of a poll response. The summary-only degraded path
returns records holding only a wine name; those are modelled by
`nameOnlyWines`. `wineCount`/`wineNames` carry the `resultMinimal`
fallback fields. -/
structure PollData where
  wines : Option (List EssentialWine) := none
  nameOnlyWines : Option (List String) := none
  imageUrl : Option String := none
  completedAt : Option Nat := none
  message : Option String := none
  wineCount : Option Nat := none
  wineNames : Option (List String) := none
deriving DecidableEq, Repr

/-- Poll response envelope of `getAnalysisResult`. -/
structure PollResult where
  status : PollStatus
  data : Option PollData := none
deriving DecidableEq, Repr

/-- The Firebase `getAnalysisResult` callable (part_000 lines 548-611),
with Firestore available and the reads succeeding: resolves the primary
document, and for a completed job merges in the `_details` document,
degrading to `resultSummary`, then `result`/`resultMinimal`, when later
pieces are missing. -/
def getAnalysisResult (st : FireStore) (jobId : String) : PollResult :=
  match st jobId with
  | none => { status := .notFound, data := none }
  | some jobData =>
    if jobData.status = some Status.completed then
      match st (jobId ++ "_details") with
      | some detailsData =>
          { status := .statusOf .completed
            data := some
              { wines := some (detailsData.wines.getD [])
                imageUrl := jsOrOpt (jobData.resultSummary.map fun rs => rs.imageUrl)
                  jobData.imageUrl
                completedAt := jobData.completedAt } }
      | none =>
        match jobData.resultSummary with
        | some rs =>
            { status := .statusOf .completed
              data := some
                { nameOnlyWines := some rs.wineNames
                  imageUrl := some rs.imageUrl
                  message := some "Limited data available. Full details could not be retrieved." } }
        | none =>
          match jobData.result with
          | some r =>
              { status := .statusOf .completed
                data := some { wines := some r.wines, message := r.message } }
          | none =>
            match jobData.resultMinimal with
            | some rm =>
                { status := .statusOf .completed
                  data := some
                    { wineCount := some rm.wineCount
                      wineNames := some rm.wineNames
                      message := some rm.message } }
            | none =>
                { status := .statusOf .completed
                  data := some
                    { wines := some []
                      message := some "Wine data was processed but details are not available." } }
    else
      { status :=
          match jobData.status with
          | some s => .statusOf s
          | none => .unknownStatus
        data := jobData.result.map fun r => { wines := some r.wines, message := r.message } }

/-- C10: every item produced by Stage-1 extraction has a nonempty name.
Candidates whose name and alias keys are absent or empty normalize to the
empty name and are dropped by the final filter, so the extraction output
contains exactly the normalizations of the candidates with a truthy
normalized name. -/
theorem extracted_items_have_nonempty_name (parsedWines : List RawWineJson) :
    (∀ w ∈ analyzeImageWithOpenAI parsedWines, w.name ≠ "") ∧
    analyzeImageWithOpenAI parsedWines =
      ((parsedWines.filter fun r => (normalizeParsedWine r).name != "").map
        normalizeParsedWine) := by
  constructor
  · intro w hw
    have h := List.of_mem_filter hw
    simpa using h
  · unfold analyzeImageWithOpenAI
    rw [List.filter_map]
    rfl

/-- Witness for `extracted_items_have_nonempty_name` at a concrete
two-candidate extraction (the second candidate is nameless and dropped). -/
theorem extracted_items_have_nonempty_name_witness :
    ({ name := "Margaux", vintage := "2015", producer := "", region := "",
       varietal := "" } : NormalizedWine).name ≠ "" :=
  (extracted_items_have_nonempty_name
      [{ name := some "Margaux", vintage := some "2015" },
       { region := some "Bordeaux" }]).1 _ (by decide)

/-- C4 counterexample: the initial uploading write stores a
requestTimestamp; the later processing write does not name that field,
yet after it the stored record no longer has it — the write replaced the
record instead of merging into it. -/
theorem processing_write_drops_requestTimestamp :
    (kvSet kvEmpty "job-c4" (uploadingRec 111) "job-c4").map KVRecord.requestTimestamp
      = some (some 111) ∧
    (kvSet (kvSet kvEmpty "job-c4" (uploadingRec 111)) "job-c4"
        (processingRec "https://blob.example/c4.jpg" 222) "job-c4").map
        KVRecord.requestTimestamp = some none ∧
    (kvSet (kvSet kvEmpty "job-c4" (uploadingRec 111)) "job-c4"
        (processingRec "https://blob.example/c4.jpg" 222) "job-c4").map
        KVRecord.requestTimestamp
      ≠ (kvSet kvEmpty "job-c4" (uploadingRec 111) "job-c4").map
        KVRecord.requestTimestamp := by
  refine ⟨rfl, rfl, by decide⟩

/-- C4 amended: writes to the job record go through `kv.set`, which
replaces the record wholesale rather than merging: after a write the
stored record is exactly the written object (other keys are unchanged),
so every field the write does not name is absent afterwards — in
particular the processing write erases the requestTimestamp stored at
creation. -/
theorem kv_writes_replace_record (st : KVStore) (k k2 blobUrl : String) (v : KVRecord)
    (tReq tProc : Nat) :
    kvSet st k v k = some v ∧
    (k2 ≠ k → kvSet st k v k2 = st k2) ∧
    kvSet (kvSet st k (uploadingRec tReq)) k (processingRec blobUrl tProc) k
      = some (processingRec blobUrl tProc) ∧
    (processingRec blobUrl tProc).requestTimestamp = none := by
  refine ⟨by simp [kvSet], fun h => by simp [kvSet, h], by simp [kvSet], rfl⟩

/-- Witness for `kv_writes_replace_record` at concrete store contents. -/
theorem kv_writes_replace_record_witness :
    kvSet (kvSet kvEmpty "j" (uploadingRec 1)) "j" (processingRec "u" 2) "j"
      = some (processingRec "u" 2) ∧
    kvSet kvEmpty "j" (uploadingRec 1) "k" = kvEmpty "k" :=
  ⟨(kv_writes_replace_record kvEmpty "j" "k" "u" (uploadingRec 1) 1 2).2.2.1,
   (kv_writes_replace_record kvEmpty "j" "k" "u" (uploadingRec 1) 1 2).2.1 (by decide)⟩

/-- Concrete Netlify Worker run whose Stage-1 extraction yields zero
items. -/
def c1WorkerStore : KVStore :=
  applyEvents kvEmpty (workerEvents "job-c1" "https://blob.example/c1.jpg" [] [] 10 25)

/-- C1 counterexample: on a job whose Stage-1 extraction yields zero
items, the Netlify Worker (part_000 lines 919-929) writes a terminal
failed record with an error message, not a completed record. -/
theorem netlify_worker_zero_items_writes_failed :
    (c1WorkerStore "job-c1").map KVRecord.status = some Status.failed ∧
    (c1WorkerStore "job-c1").map KVRecord.error
      = some (some "Could not identify any wine in the image.") ∧
    (c1WorkerStore "job-c1").map KVRecord.status ≠ some Status.completed := by
  refine ⟨rfl, rfl, by decide⟩

/-- C1 amended: zero-item extraction is a success outcome for the
Firebase worker, which merges a completed status with an empty item array
into the job document and returns completed with zero wines; the Netlify
Worker, however, treats the same situation as a failure and writes a
terminal failed record with an error message. -/
theorem zero_items_firebase_completed_netlify_failed
    (st : FireStore) (jobId imageUrl : String) (now : Nat) (d : FireDoc)
    (hd : st jobId = some d) (jobId2 imageUrl2 : String) (t0 tEnd : Nat) :
    (∃ st2, (analyzeWineNoWinesBranch st jobId imageUrl now).1 = some st2 ∧
      (st2 jobId).map FireDoc.status = some (some Status.completed) ∧
      ((st2 jobId).bind FireDoc.result).map FireResult.wines = some []) ∧
    (analyzeWineNoWinesBranch st jobId imageUrl now).2 =
      { jobId := jobId, status := .completed, wines := [] } ∧
    ((applyEvents kvEmpty (workerEvents jobId2 imageUrl2 [] [] t0 tEnd)) jobId2).map
      KVRecord.status = some Status.failed ∧
    ((applyEvents kvEmpty (workerEvents jobId2 imageUrl2 [] [] t0 tEnd)) jobId2).map
      KVRecord.error = some (some "Could not identify any wine in the image.") := by
  refine ⟨?_, rfl, ?_, ?_⟩
  · refine ⟨fsSet st jobId (fsMerge d
      { status := some .completed
        result := some { wines := [], message := some "No wines detected in the image" }
        imageUrl := some (summaryImageUrl imageUrl)
        updatedAt := some now
        completedAt := some now }), ?_, ?_, ?_⟩
    · simp [analyzeWineNoWinesBranch, fsUpdate, hd]
    · simp [fsSet, fsMerge, mergeField]
    · simp [fsSet, fsMerge, mergeField]
  · simp [workerEvents, applyEvents, kvSet, workerNoWineRec]
  · simp [workerEvents, applyEvents, kvSet, workerNoWineRec]

/-- Witness for `zero_items_firebase_completed_netlify_failed` at a
concrete store holding one processing job. -/
theorem zero_items_amended_witness :
    (∃ st2,
      (analyzeWineNoWinesBranch
          (fsSet (fun _ => none) "j1" { status := some Status.processing })
          "j1" "https://blob.example/w.jpg" 7).1 = some st2 ∧
      (st2 "j1").map FireDoc.status = some (some Status.completed) ∧
      ((st2 "j1").bind FireDoc.result).map FireResult.wines = some []) ∧
    (analyzeWineNoWinesBranch
        (fsSet (fun _ => none) "j1" { status := some Status.processing })
        "j1" "https://blob.example/w.jpg" 7).2 =
      { jobId := "j1", status := .completed, wines := [] } ∧
    ((applyEvents kvEmpty (workerEvents "j2" "https://blob.example/v.jpg" [] [] 3 9)) "j2").map
      KVRecord.status = some Status.failed ∧
    ((applyEvents kvEmpty (workerEvents "j2" "https://blob.example/v.jpg" [] [] 3 9)) "j2").map
      KVRecord.error = some (some "Could not identify any wine in the image.") :=
  zero_items_firebase_completed_netlify_failed
    (fsSet (fun _ => none) "j1" { status := some Status.processing })
    "j1" "https://blob.example/w.jpg" 7 { status := some Status.processing }
    (by simp [fsSet]) "j2" "https://blob.example/v.jpg" 3 9

/-- Degraded-but-successful collaborator outcome for one enrichment task:
no reviews found, AI-estimated default rating. -/
def defaultEnrichment : TaskOutcome :=
  .ok { reviews := []
        rating := { score := 75, source := "AI Estimated (Default)" }
        aiSummary := "No reviews found on targeted sites to summarize." }

/-- A concrete successful submission: raw base64 payload, one extracted
wine, dispatch returns after the Worker completed. -/
def c2Events : List Event :=
  triggerEvents (some "aGVsbG8=") "job-c2" "req-c2" "https://blob.example/c2.jpg"
    (.returned [{ name := some "Wine A" }] [defaultEnrichment] 10 20) 1 30

/-- C2 counterexample: the statuses written for a successfully dispatched
job are uploading, processing_started, completed, processing — the
terminal completed write is followed by a non-terminal processing write
(the Trigger resumes after the awaited dispatch and stores processing),
so the write sequence is not monotonic and a poll after the third write
followed by a poll after the fourth observes completed then processing. -/
theorem status_trace_not_monotone_concrete :
    statusTrace "job-c2" c2Events =
      [.uploading, .processingStarted, .completed, .processing] ∧
    ¬ monotoneStatusTrace (statusTrace "job-c2" c2Events) := by
  have h : statusTrace "job-c2" c2Events =
      [.uploading, .processingStarted, .completed, .processing] := by rfl
  refine ⟨h, ?_⟩
  rw [h]
  decide

/-- C2 amended: monotonicity holds within each component — the Worker
writes processing_started and then exactly one terminal status and never
writes again — but not across components: because the Trigger awaits the
dispatch call and the Worker handler responds only after its terminal
write, the Trigger then stores processing, so the status write sequence
of a successfully dispatched job is uploading, processing_started,
terminal, processing, placing a non-terminal write after the terminal
one. -/
theorem component_monotone_but_trigger_overwrites_terminal
    (jobId imageUrl img requestId blobUrl : String) (extraction : List WineInfoInput)
    (outcomes : List TaskOutcome) (t0 tEnd tReq tProc : Nat)
    (hne : img ≠ "") (hblob : imageBlobOk img = true) :
    monotoneStatusTrace
      (statusTrace jobId (workerEvents jobId imageUrl extraction outcomes t0 tEnd)) ∧
    statusTrace jobId
      (triggerEvents (some img) jobId requestId blobUrl
        (.returned extraction outcomes t0 tEnd) tReq tProc) =
      [.uploading, .processingStarted,
       (if extraction.length = 0 then .failed else .completed), .processing] := by
  constructor
  · by_cases h : extraction.length = 0
    · simp only [workerEvents, statusTrace, h, if_pos]
      simp [processingStartedRec, workerNoWineRec]
      decide
    · simp only [workerEvents, statusTrace, if_neg h]
      simp [processingStartedRec, workerCompletedRec]
      decide
  · simp only [triggerEvents, if_neg hne, hblob, if_pos]
    by_cases h : extraction.length = 0 <;>
      simp [workerEvents, statusTrace, h, processingStartedRec, workerNoWineRec,
        workerCompletedRec, uploadingRec, processingRec]

/-- Witness for `component_monotone_but_trigger_overwrites_terminal` at a
concrete one-wine submission. -/
theorem component_monotone_witness :
    monotoneStatusTrace
      (statusTrace "job-w2" (workerEvents "job-w2" "https://blob.example/w2.jpg"
        [{ name := some "Wine A" }] [defaultEnrichment] 10 20)) ∧
    statusTrace "job-w2"
      (triggerEvents (some "aGVsbG8=") "job-w2" "req-w2" "https://blob.example/w2.jpg"
        (.returned [{ name := some "Wine A" }] [defaultEnrichment] 10 20) 1 30) =
      [.uploading, .processingStarted,
       (if ([({ name := some "Wine A" } : WineInfoInput)]).length = 0 then Status.failed
        else Status.completed), .processing] :=
  component_monotone_but_trigger_overwrites_terminal "job-w2" "https://blob.example/w2.jpg"
    "aGVsbG8=" "req-w2" "https://blob.example/w2.jpg"
    [{ name := some "Wine A" }] [defaultEnrichment] 10 20 1 30 (by decide) (by decide)

/-- A concrete successful submission whose Stage-1 extraction is empty:
the Worker writes its terminal record before the Trigger responds. -/
def c3Events : List Event :=
  triggerEvents (some "c3img64") "job-c3" "req-c3" "https://blob.example/c3.jpg"
    (.returned [] [] 3 7) 1 9

/-- C3 counterexample: in a successful submission the only HTTP response
is at index 4 while the Worker already wrote its terminal record at index
2, so the Submit response is not produced before the pipeline finished —
the dispatch is awaited, not fire-and-forget. -/
theorem submit_response_after_terminal_write_concrete :
    responseIndexes c3Events = [4] ∧
    terminalWriteIndexes "job-c3" c3Events = [2] ∧
    ¬ respondsBeforePipelineEnd "job-c3" c3Events := by
  refine ⟨rfl, rfl, ?_⟩
  intro h
  have := h 4 (by decide) 2 (by decide)
  omega

/-- C3 amended: for every valid submission with a successful dispatch,
the Submit response is the 202 body carrying the jobId and its content
does not depend on the pipeline outcome, but it is produced only after
the awaited dispatch call returns: the Worker terminal write always sits
at index 2 of the run while the sole HTTP response sits at index 4, so
the Trigger waits for the pipeline to finish before responding. -/
theorem submit_waits_for_pipeline_terminal_write
    (img jobId requestId blobUrl : String) (extraction : List WineInfoInput)
    (outcomes : List TaskOutcome) (t0 tEnd tReq tProc : Nat)
    (hne : img ≠ "") (hblob : imageBlobOk img = true) :
    (triggerEvents (some img) jobId requestId blobUrl
        (.returned extraction outcomes t0 tEnd) tReq tProc).getLast? =
      some (.httpResponse 202
        { success := true, status := some "processing", jobId := some jobId,
          requestId := requestId }) ∧
    terminalWriteIndexes jobId
      (triggerEvents (some img) jobId requestId blobUrl
        (.returned extraction outcomes t0 tEnd) tReq tProc) = [2] ∧
    responseIndexes
      (triggerEvents (some img) jobId requestId blobUrl
        (.returned extraction outcomes t0 tEnd) tReq tProc) = [4] := by
  simp only [triggerEvents, if_neg hne, hblob, if_pos]
  by_cases h : extraction.length = 0 <;>
    simp [workerEvents, h, terminalWriteIndexes, responseIndexes, eventIndexesWhere,
      eventIndexesWhereFrom, isTerminal, processingStartedRec, workerNoWineRec,
      workerCompletedRec, uploadingRec, processingRec]

/-- Witness for `submit_waits_for_pipeline_terminal_write` at a concrete
empty-extraction submission. -/
theorem submit_waits_witness :
    (triggerEvents (some "c3img64") "job-w3" "req-w3" "https://blob.example/w3.jpg"
        (.returned [] [] 3 7) 1 9).getLast? =
      some (.httpResponse 202
        { success := true, status := some "processing", jobId := some "job-w3",
          requestId := "req-w3" }) ∧
    terminalWriteIndexes "job-w3"
      (triggerEvents (some "c3img64") "job-w3" "req-w3" "https://blob.example/w3.jpg"
        (.returned [] [] 3 7) 1 9) = [2] ∧
    responseIndexes
      (triggerEvents (some "c3img64") "job-w3" "req-w3" "https://blob.example/w3.jpg"
        (.returned [] [] 3 7) 1 9) = [4] :=
  submit_waits_for_pipeline_terminal_write "c3img64" "job-w3" "req-w3"
    "https://blob.example/w3.jpg" [] [] 3 7 1 9 (by decide) (by decide)

/-- C6: when the dispatch call fails synchronously, the Trigger Service
stores a trigger_failed record with an error message on the job record it
already created, and answers 500 with a failure body carrying the jobId. -/
theorem dispatch_failure_writes_trigger_failed_and_returns_jobId
    (img jobId requestId blobUrl msg : String) (tReq tProc : Nat) (st : KVStore)
    (hne : img ≠ "") (hblob : imageBlobOk img = true) :
    (applyEvents st (triggerEvents (some img) jobId requestId blobUrl
        (.failedWith msg) tReq tProc) jobId).map KVRecord.status
      = some Status.triggerFailed ∧
    (applyEvents st (triggerEvents (some img) jobId requestId blobUrl
        (.failedWith msg) tReq tProc) jobId).map KVRecord.error
      = some (some "Failed to trigger background processing") ∧
    (triggerEvents (some img) jobId requestId blobUrl
        (.failedWith msg) tReq tProc).getLast? =
      some (.httpResponse 500
        { success := false
          message := some "Failed to start background analysis job."
          status := some "failed"
          jobId := some jobId
          requestId := requestId }) := by
  simp only [triggerEvents, if_neg hne, hblob, if_pos]
  refine ⟨?_, ?_, by simp⟩ <;>
    simp [applyEvents, kvSet, triggerFailedRec]

/-- Witness for
`dispatch_failure_writes_trigger_failed_and_returns_jobId` at a concrete
submission whose dispatch call times out. -/
theorem dispatch_failure_witness :
    (applyEvents kvEmpty (triggerEvents (some "aGVsbG8=") "job-w6" "req-w6"
        "https://blob.example/w6.jpg" (.failedWith "connect ETIMEDOUT") 1 2)
        "job-w6").map KVRecord.status = some Status.triggerFailed ∧
    (applyEvents kvEmpty (triggerEvents (some "aGVsbG8=") "job-w6" "req-w6"
        "https://blob.example/w6.jpg" (.failedWith "connect ETIMEDOUT") 1 2)
        "job-w6").map KVRecord.error
      = some (some "Failed to trigger background processing") ∧
    (triggerEvents (some "aGVsbG8=") "job-w6" "req-w6" "https://blob.example/w6.jpg"
        (.failedWith "connect ETIMEDOUT") 1 2).getLast? =
      some (.httpResponse 500
        { success := false
          message := some "Failed to start background analysis job."
          status := some "failed"
          jobId := some "job-w6"
          requestId := "req-w6" }) :=
  dispatch_failure_writes_trigger_failed_and_returns_jobId "aGVsbG8=" "job-w6" "req-w6"
    "https://blob.example/w6.jpg" "connect ETIMEDOUT" 1 2 kvEmpty (by decide) (by decide)

/-- Fully identified concrete extraction item. -/
def c5Wine : WineInfoInput :=
  { name := some "Lafite", vintage := some "2015", producer := some "Lafite",
    region := some "Bordeaux", varietal := some "Merlot" }

/-- C5 counterexample: when the enrichment task of an item throws, the
catch block rebuilds the item from name, vintage and producer only, so
the region (a base identification field, set on the input) is gone on the
returned item — the failed item does not retain all of its base
identification fields. -/
theorem failed_task_drops_region :
    c5Wine.region = some "Bordeaux" ∧
    (processWineTask c5Wine (.thrown "network error")).error ≠ none ∧
    (processWineTask c5Wine (.thrown "network error")).region = none ∧
    (processWineTask c5Wine (.thrown "network error")).region ≠ c5Wine.region := by
  refine ⟨rfl, by decide, rfl, by decide⟩

/-- C5 amended: if among N extracted items exactly one task throws, the
job still reaches a completed terminal write carrying N items; the failed
item keeps its name, vintage and producer (region and varietal are
dropped) with fallback score 0, ratingSource "Processing Error" and an
error annotation, while every other item is the unchanged result of its
own task, with no error annotation. -/
theorem single_task_failure_job_completes_with_fallback
    (jobId imageUrl : String) (wines : List WineInfoInput) (outcomes : List TaskOutcome)
    (t0 tEnd : Nat) (k : Nat) (msg : String)
    (hlen : outcomes.length = wines.length) (hk : k < wines.length)
    (hthrow : outcomes[k]? = some (.thrown msg))
    (hok : ∀ j, j < wines.length → j ≠ k → ∃ d, outcomes[j]? = some (.ok d)) :
    (processedWinesList wines outcomes).length = wines.length ∧
    (workerEvents jobId imageUrl wines outcomes t0 tEnd).getLast? =
      some (.kvWrite jobId (workerCompletedRec (processedWinesList wines outcomes)
        imageUrl tEnd (tEnd - t0))) ∧
    (processedWinesList wines outcomes)[k]? =
      some (processWineTask (wines.get ⟨k, hk⟩) (.thrown msg)) ∧
    ((processedWinesList wines outcomes)[k]?.map ProcessedWine.error) =
      some (some ("Failed to process complete data: " ++ msg)) ∧
    ((processedWinesList wines outcomes)[k]?.map ProcessedWine.score) = some 0 ∧
    ((processedWinesList wines outcomes)[k]?.map ProcessedWine.ratingSource) =
      some "Processing Error" ∧
    ((processedWinesList wines outcomes)[k]?.map ProcessedWine.name) =
      some (jsOrElse (wines.get ⟨k, hk⟩).name "Unknown Wine") ∧
    ((processedWinesList wines outcomes)[k]?.map ProcessedWine.vintage) =
      some (jsOrUndefined (wines.get ⟨k, hk⟩).vintage) ∧
    ((processedWinesList wines outcomes)[k]?.map ProcessedWine.producer) =
      some (jsOrUndefined (wines.get ⟨k, hk⟩).producer) ∧
    ∀ j, ∀ hj : j < wines.length, j ≠ k →
      ∃ d, outcomes[j]? = some (.ok d) ∧
        (processedWinesList wines outcomes)[j]? =
          some (processWineTask (wines.get ⟨j, hj⟩) (.ok d)) ∧
        ((processedWinesList wines outcomes)[j]?.map ProcessedWine.error) = some none := by
  have hslot : ∀ i, ∀ hi : i < wines.length, ∀ o, outcomes[i]? = some o →
      (processedWinesList wines outcomes)[i]? =
        some (processWineTask (wines.get ⟨i, hi⟩) o) := by
    intro i hi o ho
    rw [processedWinesList, List.getElem?_zipWith']
    simp [List.getElem?_eq_getElem hi, ho]
  have hkslot := hslot k hk _ hthrow
  have h0 : ¬ wines.length = 0 := by omega
  refine ⟨by simp [processedWinesList, hlen], ?_, hkslot, ?_, ?_, ?_, ?_, ?_, ?_, ?_⟩
  · simp [workerEvents, h0]
  · rw [hkslot]; simp [processWineTask]
  · rw [hkslot]; simp [processWineTask]
  · rw [hkslot]; simp [processWineTask]
  · rw [hkslot]; simp [processWineTask]
  · rw [hkslot]; simp [processWineTask]
  · rw [hkslot]; simp [processWineTask]
  · intro j hj hjk
    obtain ⟨d, hd⟩ := hok j hj hjk
    have hjslot := hslot j hj _ hd
    exact ⟨d, hd, hjslot, by rw [hjslot]; simp [processWineTask]⟩

/-- Concrete two-item extraction for the C5 witness. -/
def c5wWines : List WineInfoInput := [{ name := some "Margaux" }, c5Wine]

/-- Outcomes for the C5 witness: the first task succeeds with degraded
data, the second throws. -/
def c5wOutcomes : List TaskOutcome := [defaultEnrichment, .thrown "boom"]

/-- Witness for `single_task_failure_job_completes_with_fallback` on a
two-item job whose second task throws. -/
theorem single_task_failure_witness :
    (processedWinesList c5wWines c5wOutcomes).length = c5wWines.length ∧
    ((processedWinesList c5wWines c5wOutcomes)[1]?.map ProcessedWine.error) =
      some (some ("Failed to process complete data: " ++ "boom")) :=
  have h := single_task_failure_job_completes_with_fallback "job-w5"
    "https://blob.example/w5.jpg" c5wWines c5wOutcomes 2 9 1 "boom"
    (by decide) (by decide) (by decide)
    (fun j hj hjk => by
      have hlen2 : c5wWines.length = 2 := rfl
      rw [hlen2] at hj
      have hj0 : j = 0 := by omega
      subst hj0
      exact ⟨{ reviews := []
               rating := { score := 75, source := "AI Estimated (Default)" }
               aiSummary := "No reviews found on targeted sites to summarize." }, rfl⟩)
  ⟨h.1, h.2.2.2.1⟩

/-- A submission with a present but undecodable payload: a data URL with
no comma, so `dataURLtoBlob` returns null. The dispatch outcome is never
reached on this path. -/
def c7Events : List Event :=
  triggerEvents (some "data:image/jpeg;base64") "job-c7" "req-c7"
    "https://blob.example/c7.jpg" (.failedWith "unreached") 4 5

/-- C7 counterexample: on an undecodable payload the Trigger Service
first creates the job record and only then fails while decoding: the run
writes uploading and then a failed record — a job record exists
afterwards — and the response is 500, not a 4xx rejection before job
creation. -/
theorem undecodable_image_creates_failed_record_500 :
    dataURLtoBlobOk "data:image/jpeg;base64" = false ∧
    statusTrace "job-c7" c7Events = [.uploading, .failed] ∧
    (applyEvents kvEmpty c7Events) "job-c7" =
      some (setupFailedRec "Failed to process image data for upload.") ∧
    (applyEvents kvEmpty c7Events) "job-c7" ≠ none ∧
    responseCode c7Events = some 500 := by
  refine ⟨rfl, rfl, rfl, by decide, rfl⟩

/-- C7 amended: a missing payload is rejected with 400 before any job is
created by both trigger variants, and the OpenAI-variant trigger also
rejects an undecodable payload with 400 before creating its record; the
Vercel trigger however creates the job record before decoding, so an
undecodable payload there leaves a failed job record behind and is
answered with 500. -/
theorem validation_reject_before_create_except_vercel_decode
    (jobId requestId blobUrl now : String) (dispatch : DispatchOutcome) (tReq tProc : Nat)
    (rest : List OpenaiEvent) (img : String) (st : KVStore)
    (hbad : img ≠ "" → imageBlobOk img = false)
    (imgO : String) (hOne : imgO ≠ "") (hObad : validateAndExtractImageData imgO = none) :
    triggerEvents none jobId requestId blobUrl dispatch tReq tProc =
      [.httpResponse 400
        { success := false, message := some "No image provided", requestId := requestId }] ∧
    triggerEvents (some "") jobId requestId blobUrl dispatch tReq tProc =
      [.httpResponse 400
        { success := false, message := some "No image provided", requestId := requestId }] ∧
    openaiTriggerEvents none jobId blobUrl requestId now rest =
      [.httpResponse 400
        { status := "error", message := some "No image provided", jobId := jobId }] ∧
    openaiTriggerEvents (some imgO) jobId blobUrl requestId now rest =
      [.httpResponse 400
        { status := "error"
          message := some "Invalid image data format. Expected base64 string or data URL"
          jobId := jobId }] ∧
    (img ≠ "" →
      (applyEvents st (triggerEvents (some img) jobId requestId blobUrl dispatch tReq tProc))
          jobId = some (setupFailedRec "Failed to process image data for upload.") ∧
      responseCode (triggerEvents (some img) jobId requestId blobUrl dispatch tReq tProc) =
        some 500) := by
  refine ⟨rfl, rfl, rfl, ?_, ?_⟩
  · simp [openaiTriggerEvents, hOne, hObad]
  · intro hne
    have hb := hbad hne
    simp only [triggerEvents, if_neg hne, hb]
    constructor
    · simp [applyEvents, kvSet]
    · simp [responseCode]

/-- Witness for `validation_reject_before_create_except_vercel_decode`
at concrete undecodable payloads. -/
theorem validation_reject_witness :
    openaiTriggerEvents (some "data:image/jpeg;base64") "job-w7" "https://blob.example/w7.jpg"
        "req-w7" "2025-04-01" [] =
      [.httpResponse 400
        { status := "error"
          message := some "Invalid image data format. Expected base64 string or data URL"
          jobId := "job-w7" }] ∧
    (applyEvents kvEmpty (triggerEvents (some "data:image/jpeg;base64") "job-w7" "req-w7"
        "https://blob.example/w7.jpg" (.failedWith "unreached") 4 5)) "job-w7" =
      some (setupFailedRec "Failed to process image data for upload.") :=
  have h := validation_reject_before_create_except_vercel_decode "job-w7" "req-w7"
    "https://blob.example/w7.jpg" "2025-04-01" (.failedWith "unreached") 4 5 []
    "data:image/jpeg;base64" kvEmpty (fun _ => by decide)
    "data:image/jpeg;base64" (by decide) (by decide)
  ⟨h.2.2.2.1, (h.2.2.2.2 (by decide)).1⟩

/-- The `Promise.all` join of the Stage-2 fan-out: each task writes its
result into the slot of its own index; `order` is the order in which the
concurrent tasks complete. Slots of tasks that have not completed hold
`none`. -/
def promiseAllAssemble {α : Type} (results : List α) (order : List Nat) :
    List (Option α) :=
  order.foldl
    (fun acc j =>
      match results[j]? with
      | some v => acc.set j (some v)
      | none => acc)
    (List.replicate results.length none)

theorem promiseAllAssemble_foldl_slot {α : Type} (results : List α) (order : List Nat)
    (acc : List (Option α)) (hlen : acc.length = results.length)
    {i : Nat} (hi : i < results.length) :
    (order.foldl
      (fun acc j =>
        match results[j]? with
        | some v => acc.set j (some v)
        | none => acc)
      acc)[i]? =
      if i ∈ order then some (some (results.get ⟨i, hi⟩)) else acc[i]? := by
  induction order generalizing acc with
  | nil => simp
  | cons o os ih =>
    have hlen2 : (match results[o]? with
        | some v => acc.set o (some v)
        | none => acc).length = results.length := by
      cases h : results[o]? <;> simp [hlen]
    rw [List.foldl_cons, ih _ hlen2]
    by_cases hmem : i ∈ os
    · simp [hmem, List.mem_cons]
    · by_cases hoi : o = i
      · subst hoi
        have : results[o]? = some (results.get ⟨o, hi⟩) := by
          simp [List.getElem?_eq_getElem hi]
        simp [hmem, this, List.mem_cons,
          List.getElem?_set_eq_of_lt _ (by rw [hlen]; exact hi)]
      · have hio : ¬ i = o := fun h => hoi h.symm
        cases h : results[o]? with
        | none => simp [h, hmem, hio, List.mem_cons]
        | some v => simp [h, hmem, hio, List.mem_cons, List.getElem?_set_ne hoi]

/-- C8: the array assembled after all Stage-2 tasks resolve lists the
items in Stage-1 extraction order, whatever the completion order of the
concurrent tasks: once every task index has completed, slot i holds the
enrichment of extraction item i. -/
theorem final_array_in_extraction_order
    (wines : List WineInfoInput) (outcomes : List TaskOutcome) (order : List Nat)
    (hlen : outcomes.length = wines.length)
    (hcover : ∀ j, j < wines.length → j ∈ order) (i : Nat) (hi : i < wines.length) :
    (promiseAllAssemble (processedWinesList wines outcomes) order)[i]? =
      some (some (processWineTask (wines.get ⟨i, hi⟩)
        (outcomes.get ⟨i, by rw [hlen]; exact hi⟩))) := by
  have hplen : (processedWinesList wines outcomes).length = wines.length := by
    simp [processedWinesList, hlen]
  have hi2 : i < (processedWinesList wines outcomes).length := by rw [hplen]; exact hi
  rw [promiseAllAssemble,
    promiseAllAssemble_foldl_slot (processedWinesList wines outcomes) order _
      (by simp) hi2]
  rw [if_pos (hcover i hi)]
  have hval : (processedWinesList wines outcomes).get ⟨i, hi2⟩ =
      processWineTask (wines.get ⟨i, hi⟩) (outcomes.get ⟨i, by rw [hlen]; exact hi⟩) := by
    simp [processedWinesList, List.get_eq_getElem, List.getElem_zipWith]
  rw [hval]

/-- Witness for `final_array_in_extraction_order`: two tasks completing
in reverse order still fill slot 0 with the enrichment of item 0. -/
theorem final_array_in_extraction_order_witness :
    (promiseAllAssemble (processedWinesList c5wWines c5wOutcomes) [1, 0])[0]? =
      some (some (processWineTask (c5wWines.get ⟨0, by decide⟩)
        (c5wOutcomes.get ⟨0, by decide⟩))) :=
  final_array_in_extraction_order c5wWines c5wOutcomes [1, 0] (by decide)
    (fun j hj => by
      have h2 : c5wWines.length = 2 := rfl
      rw [h2] at hj
      interval_cases j <;> decide) 0 (by decide)

theorem details_key_ne_self (jobId : String) : jobId ++ "_details" ≠ jobId := by
  intro h
  have hlen := congrArg String.length h
  rw [String.length_append] at hlen
  have h8 : ("_details" : String).length = 8 := rfl
  rw [h8] at hlen
  omega

/-- C9: round-trip through the two Firestore documents. After the
Stage-3 success path writes the completed summary into the primary
document and the full item array into the details document, the Status
Service reads back a completed response whose item array is
element-for-element the array the Worker wrote. -/
theorem status_service_round_trip
    (st : FireStore) (jobId imageUrl : String) (essential : List EssentialWine)
    (now : Nat) (d : FireDoc) (hd : st jobId = some d) :
    ∃ st2, storeAnalysisResults st jobId imageUrl essential now = some st2 ∧
      (getAnalysisResult st2 jobId).status = .statusOf .completed ∧
      ((getAnalysisResult st2 jobId).data.bind PollData.wines) = some essential := by
  refine ⟨fsSet (fsSet st jobId (fsMerge d
      { status := some .completed
        resultSummary := some
          { wineCount := essential.length
            wineNames := essential.map fun w => w.name
            imageUrl := summaryImageUrl imageUrl }
        updatedAt := some now
        completedAt := some now })) (jobId ++ "_details")
      { wines := some essential, createdAt := some now }, ?_, ?_, ?_⟩
  all_goals
    have hne := details_key_ne_self jobId
    have hne2 : jobId ≠ jobId ++ "_details" := fun h => hne h.symm
  · simp [storeAnalysisResults, fsUpdate, hd]
  · simp [getAnalysisResult, fsSet, hne, hne2, fsMerge, mergeField]
  · simp [getAnalysisResult, fsSet, hne, hne2, fsMerge, mergeField]

/-- Witness for `status_service_round_trip` on a store holding one
processing job and a one-item result array. -/
theorem status_service_round_trip_witness :
    ∃ st2, storeAnalysisResults
        (fsSet (fun _ => none) "j9" { status := some Status.processing })
        "j9" "https://blob.example/w9.jpg"
        [{ name := "Margaux", vintage := "2015", producer := "Margaux", region := "Bordeaux",
           varietal := "Merlot", score := 94, tastingNotes := "Fine", webSnippets := "",
           valueAssessment := "Fair", flavorFruitiness := 6, flavorAcidity := 5,
           flavorBody := 7, isFromMenu := false }] 3 = some st2 ∧
      (getAnalysisResult st2 "j9").status = .statusOf .completed ∧
      ((getAnalysisResult st2 "j9").data.bind PollData.wines) =
        some [{ name := "Margaux", vintage := "2015", producer := "Margaux",
                region := "Bordeaux", varietal := "Merlot", score := 94,
                tastingNotes := "Fine", webSnippets := "", valueAssessment := "Fair",
                flavorFruitiness := 6, flavorAcidity := 5, flavorBody := 7,
                isFromMenu := false }] :=
  status_service_round_trip
    (fsSet (fun _ => none) "j9" { status := some Status.processing })
    "j9" "https://blob.example/w9.jpg"
    [{ name := "Margaux", vintage := "2015", producer := "Margaux", region := "Bordeaux",
       varietal := "Merlot", score := 94, tastingNotes := "Fine", webSnippets := "",
       valueAssessment := "Fair", flavorFruitiness := 6, flavorAcidity := 5,
       flavorBody := 7, isFromMenu := false }] 3 { status := some Status.processing }
    (by simp [fsSet])
